import Mathlib

/-!
Verification of the sidehustle-engine RPA content-intelligence core.

A shallow embedding, in Lean 4, of the parts of the Python source that the
specification's testable properties talk about:

* `backend/services/rpa_multi_platform_crawler.py` — the crawl orchestrator
  (`search_all_platforms_rpa`) and its per-item confidence scores;
* `backend/services/rpa_anti_detection.py` — the proxy identity pool
  (`get_next_proxy`, `mark_proxy_failure`, `mark_proxy_success`);
* `backend/services/advanced_content_analyzer.py` — cross-platform validation,
  growth rate, prediction score;
* `backend/services/rpa_content_analyzer.py` — keyword extraction, trending-topic
  extraction, growth indicators, topic confidence, follower estimation;
* `backend/services/intelligent_topic_service.py` — the cache reader.

Python floats are modelled as rationals (`ℚ`), Python ints as `ℕ`/`ℤ`, and
Python's builtin `round` as round-half-to-even on rationals.  Timestamps are
modelled as rationals (seconds); the wall clock is always an explicit argument.
Stateful methods are explicit state-passing functions.
-/

set_option allowUnsafeReducibility true
attribute [local semireducible] Rat.add Rat.mul Rat.div Rat.sub Rat.neg Rat.inv

/-! ## Python numeric primitives -/

/-- Python's `int(x)` applied to a float: truncation toward zero. -/
def pyInt (q : ℚ) : ℤ := if 0 ≤ q then ⌊q⌋ else ⌈q⌉

/-- Python's builtin `round` to an integer: round half to even
(we model the exact-arithmetic behaviour of banker's rounding on rationals). -/
def pyRound (q : ℚ) : ℤ :=
  let f := ⌊q⌋
  let r := q - f
  if r < 1/2 then f
  else if 1/2 < r then f + 1
  else if f % 2 = 0 then f else f + 1

/-- Python's `round(x, n)` for `n` decimal digits. -/
def roundTo (n : ℕ) (q : ℚ) : ℚ := (pyRound (q * 10 ^ n) : ℚ) / 10 ^ n

/-! ## Python's stable sort

`list.sort(key=k)` / `sorted(..., key=k)` in CPython is a stable sort; with
`reverse=True` the comparison is flipped while ties keep their original order.
`pySort r` models it for an arbitrary total preorder `r` ("may come before"):
each element is inserted after every already-placed element that may stay in
front of it, which reproduces the stable behaviour. -/

def pySortInsert (r : α → α → Prop) [DecidableRel r] (x : α) : List α → List α
  | [] => [x]
  | y :: ys => if r y x then y :: pySortInsert r x ys else x :: y :: ys

def pySort (r : α → α → Prop) [DecidableRel r] (l : List α) : List α :=
  l.foldl (fun acc x => pySortInsert r x acc) []

/-! ## Influencer follower estimation

From `RPAContentAnalyzer._estimate_follower_count`
(`backend/services/rpa_content_analyzer.py`): four engagement bands with
multipliers 100 / 50 / 20 / 10, truncated to `int`. -/

def estimateFollowerCount (avg_engagement : ℚ) : ℤ :=
  if avg_engagement < 10 then pyInt (avg_engagement * 100)
  else if avg_engagement < 100 then pyInt (avg_engagement * 50)
  else if avg_engagement < 1000 then pyInt (avg_engagement * 20)
  else pyInt (avg_engagement * 10)

/-- Two nonnegative mean-engagement values fall in the same band of
`estimateFollowerCount` (given `a ≤ b`). -/
def sameBand (a b : ℚ) : Prop :=
  b < 10 ∨ (10 ≤ a ∧ b < 100) ∨ (100 ≤ a ∧ b < 1000) ∨ 1000 ≤ a

/-! ## Content records and the crawl orchestrator

From `backend/services/rpa_multi_platform_crawler.py`.  `RPAContentItem` is the
dataclass of the same name; engagement metric values are modelled as rationals.
`search_all_platforms_rpa` runs the platform list `['google', 'reddit']`
sequentially, catches every per-platform exception (`continue`), extends the
batch with each successful platform's results, and finally sorts the batch by
`confidence_score` descending.  We model a platform run as an `Except` value:
`Except.error` is a raised per-platform exception, `Except.ok l` a normal
return (possibly empty).  The body of `search_all_platforms_rpa` itself has no
`raise` statement, so the embedding always produces `Except.ok`; the error type
carries an `emptyBatch` constructor only so that the specification's
`EmptyBatchError` claim can be stated against it. -/

structure RPAContentItem where
  platform : String
  title : String
  content : String
  url : String
  author : String
  engagement_metrics : List (String × ℚ)
  confidence_score : ℚ
  scraped_at : String

deriving DecidableEq

inductive CrawlerError where
  | platformFailure : CrawlerError
  | emptyBatch : CrawlerError

deriving DecidableEq

deriving instance DecidableEq for Except

/-- Descending order on per-item confidence: `a` may come before `b`. -/
def confGE (a b : RPAContentItem) : Prop := b.confidence_score ≤ a.confidence_score

instance : DecidableRel confGE := fun a b => inferInstanceAs (Decidable (_ ≤ _))

/-- The platform list hard-coded in `search_all_platforms_rpa`
(YouTube is commented out as unstable in the source). -/
def crawlPlatforms : List String := ["google", "reddit"]

/-- The batch gathered before sorting: per-platform failures are skipped. -/
def gatherAllContent (outcomes : String → Except CrawlerError (List RPAContentItem)) :
    List RPAContentItem :=
  crawlPlatforms.foldl (fun acc p =>
    match outcomes p with
    | Except.ok results => acc ++ results
    | Except.error _ => acc) []

def searchAllPlatformsRPA (outcomes : String → Except CrawlerError (List RPAContentItem)) :
    Except CrawlerError (List RPAContentItem) :=
  Except.ok (pySort confGE (gatherAllContent outcomes))

def allFailOutcomes : String → Except CrawlerError (List RPAContentItem) :=
  fun _ => Except.error CrawlerError.platformFailure

def w1goodItem : RPAContentItem :=
  { platform := "google", title := "passive income tutorial", content := "snippet",
    url := "https://example.com", author := "example.com",
    engagement_metrics := [("ranking", 1)], confidence_score := 17/20,
    scraped_at := "2024-01-01T00:00:00" }

def w1outcomes : String → Except CrawlerError (List RPAContentItem) :=
  fun p => if p = "google" then Except.ok [w1goodItem] else Except.error CrawlerError.platformFailure

def w10lowItem : RPAContentItem :=
  { platform := "reddit", title := "side hustle guide", content := "Reddit discussion",
    url := "https://old.reddit.com/r/sidehustle", author := "u1",
    engagement_metrics := [("position", 1)], confidence_score := 13/20,
    scraped_at := "2024-01-01T00:00:00" }

def w10outcomes : String → Except CrawlerError (List RPAContentItem) :=
  fun p => if p = "google" then Except.ok [w1goodItem] else Except.ok [w10lowItem]

/-! ## The proxy identity pool

From `backend/services/rpa_anti_detection.py`.  `ProxyConfig` is the dataclass
of the same name; `datetime` timestamps are rationals.  `get_next_proxy`,
`mark_proxy_failure` and `mark_proxy_success` are explicit state transitions;
`config['max_retries_per_proxy'] = 3`.  Note that `get_next_proxy` sorts the
active proxies by `(failure_count, success_count)` — Python tuple order — and
indexes the sorted list with the incremented round-robin counter; in the
all-inactive case it reassigns `active_proxies = self.proxy_pool` and the
in-place `sort` therefore reorders the pool itself. -/

structure ProxyConfig where
  host : String
  port : ℕ
  username : Option String
  password : Option String
  protocol : String
  success_count : ℕ
  failure_count : ℕ
  last_used : Option ℚ
  response_time : ℚ
  is_active : Bool

deriving DecidableEq

def maxRetriesPerProxy : ℕ := 3

def markProxyFailure (now : ℚ) (p : ProxyConfig) : ProxyConfig :=
  let p' := { p with failure_count := p.failure_count + 1, last_used := some now }
  if maxRetriesPerProxy ≤ p'.failure_count then { p' with is_active := false } else p'

def markProxySuccess (now response_time : ℚ) (p : ProxyConfig) : ProxyConfig :=
  let p' := { p with success_count := p.success_count + 1, last_used := some now,
                     response_time := response_time }
  if 0 < p'.failure_count then { p' with failure_count := p'.failure_count - 1 } else p'

/-- The pool-wide reset applied when no proxy is active. -/
def resetProxy (p : ProxyConfig) : ProxyConfig := { p with is_active := true, failure_count := 0 }

/-- Python's tuple order on the sort key `(x.failure_count, x.success_count)`. -/
def proxyKeyLE (a b : ProxyConfig) : Prop :=
  a.failure_count < b.failure_count ∨
    (a.failure_count = b.failure_count ∧ a.success_count ≤ b.success_count)

instance : DecidableRel proxyKeyLE := fun a b => inferInstanceAs (Decidable (_ ∨ _))

structure PoolState where
  proxy_pool : List ProxyConfig
  current_proxy_index : ℕ

deriving DecidableEq

def getNextProxy (s : PoolState) : Option ProxyConfig × PoolState :=
  if s.proxy_pool = [] then (none, s)
  else
    let active_proxies := s.proxy_pool.filter (·.is_active)
    if active_proxies = [] then
      let pool := pySort proxyKeyLE (s.proxy_pool.map resetProxy)
      let idx := (s.current_proxy_index + 1) % pool.length
      (pool[idx]?, { proxy_pool := pool, current_proxy_index := idx })
    else
      let sorted := pySort proxyKeyLE active_proxies
      let idx := (s.current_proxy_index + 1) % sorted.length
      (sorted[idx]?, { proxy_pool := s.proxy_pool, current_proxy_index := idx })

def wProxy : ProxyConfig :=
  { host := "proxy1.example.com", port := 8080, username := none, password := none,
    protocol := "http", success_count := 0, failure_count := 0, last_used := none,
    response_time := 0, is_active := true }

def c6p0 : ProxyConfig :=
  { host := "proxy1.example.com", port := 8080, username := none, password := none,
    protocol := "http", success_count := 0, failure_count := 0, last_used := some 0,
    response_time := 0, is_active := true }

def c6p1 : ProxyConfig :=
  { host := "proxy2.example.com", port := 3128, username := none, password := none,
    protocol := "http", success_count := 0, failure_count := 0, last_used := some 100,
    response_time := 0, is_active := true }

def c6state : PoolState := { proxy_pool := [c6p0, c6p1], current_proxy_index := 0 }

def setLastUsed (t : Option ℚ) (p : ProxyConfig) : ProxyConfig := { p with last_used := t }

def setPoolLastUsed (t : Option ℚ) (s : PoolState) : PoolState :=
  { s with proxy_pool := s.proxy_pool.map (setLastUsed t) }

/-! ## The flat-file topic cache reader

From `IntelligentTopicService._load_cache`
(`backend/services/intelligent_topic_service.py`).  `Topic` is the pydantic
model from `backend/models/schemas.py`.  A cache file on disk is modelled as
`Option CacheData`: `none` is a missing or unreadable/unparseable file (any
exception outside the per-record loop is caught by the outer handler and
yields `None`).  The stored `timestamp` is `Option ℚ` (`none` when
`datetime.fromisoformat` would reject it, which also lands in the outer
handler), and each stored record is `Option Topic` (`none` when
`Topic(**record)` raises, in which case the source logs and `continue`s).
`cache_duration = timedelta(hours=6)`; times are in seconds. -/

structure Topic where
  id : ℕ
  title : String
  reason : String
  category : String
  heat : ℤ
  keywords : List String
  source_url : Option String

deriving DecidableEq

structure CacheData where
  timestamp : Option ℚ
  topics : List (Option Topic)

deriving DecidableEq

def cacheDurationSeconds : ℚ := 6 * 3600

def loadCache (now : ℚ) (file : Option CacheData) : Option (List Topic) :=
  match file with
  | none => none
  | some cd =>
    match cd.timestamp with
    | none => none
    | some ts =>
      if cacheDurationSeconds < now - ts then none
      else some (cd.topics.filterMap id)

def c7goodTopic : Topic :=
  { id := 1, title := "AI writing side hustle", reason := "demo", category := "AI工具",
    heat := 85, keywords := ["AI"], source_url := none }

def c7data : CacheData := { timestamp := some 0, topics := [some c7goodTopic, none] }

/-! ## Growth rate (advanced analyzer) and growth indicators (RPA analyzer)

`ContentItem` is the normalized record of `multi_platform_crawler.py` consumed
by `AdvancedContentAnalyzer`; its `publish_time` string is parsed by
`_parse_time`, which is total (it falls back to the current time), so we model
the parsed timestamp directly as a rational number of seconds.
`_calculate_growth_rate` splits records at `now - 3 days`, returns 1.0 when
the older side is empty or has zero engagement, and otherwise clamps the ratio
to [-1, 5].  `RPAContentAnalyzer._calculate_growth_indicators` instead sorts
by the `scraped_at` string, splits in half, divides the difference of the mean
engagements by `max(early_mean, 1)` and rounds to 3 digits — without any
clamping. -/

structure ContentItem where
  platform : String
  title : String
  content : String
  url : String
  author : String
  publish_time : ℚ
  engagement_score : ℚ
  quality_score : ℚ
  tags : List String
  media_type : String

deriving DecidableEq

def threeDaysSeconds : ℚ := 3 * 86400

def calculateGrowthRate (now : ℚ) (content_items : List ContentItem) : ℚ :=
  let older_items := content_items.filter (fun i => i.publish_time ≤ now - threeDaysSeconds)
  if older_items = [] then 1
  else
    let recent_items := content_items.filter (fun i => now - threeDaysSeconds < i.publish_time)
    let recent_engagement := (recent_items.map (·.engagement_score)).sum
    let older_engagement := (older_items.map (·.engagement_score)).sum
    if older_engagement = 0 then 1
    else min (max ((recent_engagement - older_engagement) / older_engagement) (-1)) 5

/-- Python's `sum(item.engagement_metrics.values())` for one RPA record
(metric values are modelled as numbers). -/
def engagementSum (i : RPAContentItem) : ℚ := (i.engagement_metrics.map (·.2)).sum

/-- Python's string comparison: lexicographic on code points, a proper prefix
is smaller. -/
def charListLE : List Char → List Char → Bool
  | [], _ => true
  | _ :: _, [] => false
  | a :: as, b :: bs =>
    if a.val < b.val then true else if b.val < a.val then false else charListLE as bs

/-- Sort key of `sorted(content_items, key=lambda x: x.scraped_at)`. -/
def scrapedAtLE (a b : RPAContentItem) : Prop :=
  charListLE a.scraped_at.data b.scraped_at.data = true

instance : DecidableRel scrapedAtLE := fun a b => inferInstanceAs (Decidable (_ = true))

def calculateGrowthIndicatorsRPA (content_items : List RPAContentItem) : ℚ × ℚ :=
  if content_items = [] then (0, 0)
  else
    let sorted_items := pySort scrapedAtLE content_items
    if sorted_items.length < 2 then (0, 1/2)
    else
      let half := sorted_items.length / 2
      let early := sorted_items.take half
      let late := sorted_items.drop half
      let early_engagement := (early.map engagementSum).sum / (early.length : ℚ)
      let late_engagement := (late.map engagementSum).sum / (late.length : ℚ)
      let growth_rate := (late_engagement - early_engagement) / max early_engagement 1
      let momentum := min ((sorted_items.length : ℚ) / 10) 1
      (roundTo 3 growth_rate, roundTo 3 momentum)

def c3lowItem : RPAContentItem :=
  { platform := "google", title := "automation blog", content := "text",
    url := "https://a.example.com", author := "a.example.com",
    engagement_metrics := [("ranking", 1)], confidence_score := 7/10,
    scraped_at := "2024-01-01T00:00:00" }

def c3highItem : RPAContentItem :=
  { platform := "youtube", title := "automation video", content := "YouTube video",
    url := "https://youtube.com/v", author := "chan",
    engagement_metrics := [("views", 100)], confidence_score := 7/10,
    scraped_at := "2024-01-01T00:00:00" }

def c3oldItem : ContentItem :=
  { platform := "google", title := "t", content := "c", url := "u", author := "a",
    publish_time := 0, engagement_score := 10, quality_score := 1, tags := [],
    media_type := "text" }

/-! ## Prediction score (advanced analyzer) and topic confidence (RPA analyzer)

`AdvancedContentAnalyzer._calculate_prediction_score` is the weighted-sum
formula of the specification; `RPAContentAnalyzer._calculate_topic_confidence`
— the score actually stored on every RPA trending topic — is a different,
bonus-based formula capped at 1.0 and rounded to 3 digits. -/

def calculatePredictionScore (engagement growth_rate sentiment : ℚ)
    (platform_count content_count : ℕ) : ℚ :=
  let normalized_engagement := min (engagement / 1000) 1
  let normalized_growth := min (max (growth_rate + 1) 0) 2 / 2
  let normalized_sentiment := (sentiment + 1) / 2
  let normalized_platforms := min ((platform_count : ℚ) / 4) 1
  let normalized_content := min ((content_count : ℚ) / 20) 1
  let score := normalized_engagement * (3/10) + normalized_growth * (1/4) +
    normalized_sentiment * (3/20) + normalized_platforms * (1/5) +
    normalized_content * (1/10)
  roundTo 2 (score * 100)

def calculateTopicConfidence (topic : String) (content_items : List RPAContentItem)
    (platforms : List String) : ℚ :=
  let base_score : ℚ := 1/2
  let platform_bonus := min ((platforms.length : ℚ) * (1/10)) (3/10)
  let base_score := base_score + platform_bonus
  let content_bonus := min ((content_items.length : ℚ) * (1/50)) (1/5)
  let base_score := base_score + content_bonus
  let avg_quality := (content_items.map (·.confidence_score)).sum / (content_items.length : ℚ)
  let quality_bonus := (avg_quality - 1/2) * (2/5)
  let base_score := base_score + quality_bonus
  let total_engagement := (content_items.map engagementSum).sum
  let engagement_bonus := min (total_engagement / 1000) (1/5)
  let base_score := base_score + engagement_bonus
  roundTo 3 (min base_score 1)

def cexA : RPAContentItem :=
  { platform := "google", title := "automation automation automation", content := "",
    url := "https://a.example.com", author := "a.example.com",
    engagement_metrics := [("ranking", 1)], confidence_score := 7/10,
    scraped_at := "2024-01-01T00:00:00" }

def cexB : RPAContentItem :=
  { platform := "youtube", title := "automation automation automation", content := "",
    url := "https://youtube.com/v", author := "chan",
    engagement_metrics := [("views", 10), ("platform_score", 1/100)],
    confidence_score := 7/10, scraped_at := "2024-01-01T00:00:00" }

/-! ## RPA keyword extraction and trending-topic pipeline

From `RPAContentAnalyzer` (`backend/services/rpa_content_analyzer.py`).
String processing follows the source exactly for ASCII text (Lean's
`Char.toLower`/`Char.isAlphanum` agree with Python's `str.lower`/`\w` there):
`_extract_keywords_advanced` lowercases, replaces every character outside
`[\w\s]` by a space and splits on whitespace; unigrams need length > 3 and
per-text frequency > 2, bigrams/trigrams frequency > 1; `Counter.most_common`
is a stable sort by descending count over first-insertion key order; the
stop-word filter drops a keyword when any of its words is a stop word; the
first 20 keywords survive. -/

/-- Python `str.lower()` (ASCII). -/
def lowerStr (s : String) : String := (s.data.map Char.toLower).asString

/-- One character of `re.sub(r'[^\w\s]', ' ', text)`. -/
def cleanChar (c : Char) : Char :=
  if c.isAlphanum || c = '_' || c.isWhitespace then c else ' '

/-- `re.sub(r'[^\w\s]', ' ', text.lower())` followed by whitespace
normalisation and `str.split()`. -/
def tokenizePy (s : String) : List String :=
  ((List.splitOnP Char.isWhitespace ((s.data.map Char.toLower).map cleanChar)).filter
    (fun w => !w.isEmpty)).map List.asString

/-- Python `str.split()` without an argument (used on already-built keywords). -/
def pySplitWs (s : String) : List String :=
  ((List.splitOnP Char.isWhitespace s.data).filter (fun w => !w.isEmpty)).map List.asString

/-- `collections.Counter` over a word list: counts in first-insertion order. -/
def countAdd (w : String) : List (String × ℕ) → List (String × ℕ)
  | [] => [(w, 1)]
  | (x, n) :: rest => if x = w then (x, n + 1) :: rest else (x, n) :: countAdd w rest

def counterOf (ws : List String) : List (String × ℕ) :=
  ws.foldl (fun acc w => countAdd w acc) []

/-- Descending order on counts — `Counter.most_common` tie-breaks by
insertion order, which the stable `pySort` preserves. -/
def countGE (a b : String × ℕ) : Prop := b.2 ≤ a.2

instance : DecidableRel countGE := fun a b => Nat.decLe _ _

def mostCommon (n : ℕ) (c : List (String × ℕ)) : List (String × ℕ) :=
  (pySort countGE c).take n

def adjacentPairs : List String → List String
  | a :: b :: rest => (a ++ " " ++ b) :: adjacentPairs (b :: rest)
  | _ => []

def adjacentTriples : List String → List String
  | a :: b :: c :: rest => (a ++ " " ++ b ++ " " ++ c) :: adjacentTriples (b :: c :: rest)
  | _ => []

def stopWordsRPA : List String :=
  ["the", "and", "for", "are", "but", "not", "you", "all", "can", "had", "her", "was",
   "one", "our", "out", "day", "get", "has", "him", "his", "how", "its", "may", "new",
   "now", "old", "see", "two", "way", "who", "boy", "did", "man", "men", "put", "say",
   "she", "too", "use"]

def extractKeywordsAdvancedRPA (text : String) : List String :=
  let words := tokenizePy text
  let keywords₁ := ((mostCommon 50 (counterOf words)).filter
    (fun wf => decide (3 < wf.1.length) && decide (2 < wf.2))).map (·.1)
  let keywords₂ := ((mostCommon 30 (counterOf (adjacentPairs words))).filter
    (fun bf => decide (1 < bf.2))).map (·.1)
  let keywords₃ := ((mostCommon 20 (counterOf (adjacentTriples words))).filter
    (fun tf => decide (1 < tf.2))).map (·.1)
  let keywords := keywords₁ ++ keywords₂ ++ keywords₃
  (keywords.filter (fun kw =>
    !(stopWordsRPA.any (fun sw => (pySplitWs kw).contains sw)))).take 20

/-- `defaultdict(list)` append — groups keep first-insertion key order. -/
def appendGroup (k : String) (v : RPAContentItem) :
    List (String × List RPAContentItem) → List (String × List RPAContentItem)
  | [] => [(k, [v])]
  | (k', vs) :: rest =>
    if k' = k then (k', vs ++ [v]) :: rest else (k', vs) :: appendGroup k v rest

def groupByPlatform (items : List RPAContentItem) : List (String × List RPAContentItem) :=
  items.foldl (fun acc i => appendGroup i.platform i acc) []

/-- `topic_data[keyword].extend(items)`. -/
def extendGroup (k : String) (vs : List RPAContentItem) :
    List (String × List RPAContentItem) → List (String × List RPAContentItem)
  | [] => [(k, vs)]
  | (k', vs') :: rest =>
    if k' = k then (k', vs' ++ vs) :: rest else (k', vs') :: extendGroup k vs rest

def lookupGroup (k : String) : List (String × List RPAContentItem) → List RPAContentItem
  | [] => []
  | (k', vs) :: rest => if k' = k then vs else lookupGroup k rest

def joinWithSpace : List String → String
  | [] => ""
  | [s] => s
  | s :: rest => s ++ " " ++ joinWithSpace rest

/-- `" ".join(f"{item.title} {item.content}" for item in items)`. -/
def platformText (items : List RPAContentItem) : String :=
  joinWithSpace (items.map (fun item => item.title ++ " " ++ item.content))

/-- The keyword buckets and the flat keyword list accumulated by
`_extract_trending_topics_rpa` over the per-platform groups. -/
def buildTopicData (groups : List (String × List RPAContentItem)) :
    List (String × List RPAContentItem) × List String :=
  groups.foldl
    (fun acc g =>
      let kws := extractKeywordsAdvancedRPA (platformText g.2)
      (kws.foldl (fun td k => extendGroup k g.2 td) acc.1, acc.2 ++ kws))
    ([], [])

/-- `list(set(xs))` where only cardinality and membership matter downstream:
first-occurrence deduplication. -/
def dedupFirst (l : List String) : List String :=
  l.foldl (fun acc x => if acc.contains x then acc else acc ++ [x]) []

/-- Python `text.count(word)`: non-overlapping substring occurrences, with an
explicit skip counter so the recursion stays structural. -/
def countSubAux (pat : List Char) : List Char → ℕ → ℕ
  | [], _ => 0
  | c :: rest, skip =>
    match skip with
    | n + 1 => countSubAux pat rest n
    | 0 =>
      if pat.isPrefixOf (c :: rest) then 1 + countSubAux pat rest (pat.length - 1)
      else countSubAux pat rest 0

def countOccStr (pat s : String) : ℕ := countSubAux pat.data s.data 0

/-- Python's `in` on strings: contiguous substring test. -/
def listHasInfix (pat : List Char) : List Char → Bool
  | [] => pat.isEmpty
  | c :: rest => pat.isPrefixOf (c :: rest) || listHasInfix pat rest

def strContains (pat s : String) : Bool := listHasInfix pat.data s.data

def positiveIndicators : List String :=
  ["great", "amazing", "excellent", "fantastic", "awesome", "love", "best", "perfect",
   "wonderful"]

def negativeIndicators : List String :=
  ["bad", "terrible", "awful", "hate", "worst", "horrible", "disappointing", "failed"]

/-- `RPAContentAnalyzer._analyze_sentiment_rpa` (the
`sentiment_analysis_enabled` flag is `True` in the shipped config). -/
def analyzeSentimentRPA (content_items : List RPAContentItem) : ℚ :=
  if content_items = [] then 0
  else
    let step := content_items.foldl
      (fun (acc : ℚ × ℕ) item =>
        let text := lowerStr (item.title ++ " " ++ item.content)
        let positive_count := (positiveIndicators.map (fun w => countOccStr w text)).sum
        let negative_count := (negativeIndicators.map (fun w => countOccStr w text)).sum
        if 0 < positive_count + negative_count then
          (acc.1 + ((positive_count : ℚ) - (negative_count : ℚ)) /
            ((positive_count : ℚ) + (negative_count : ℚ)), acc.2 + 1)
        else acc)
      (0, 0)
    roundTo 3 (step.1 / (max step.2 1 : ℕ))

def topicCategoriesRPA : List (String × List String) :=
  [("AI_AUTOMATION", ["ai", "artificial intelligence", "automation", "chatgpt",
      "machine learning", "bot"]),
   ("CONTENT_CREATION", ["youtube", "tiktok", "instagram", "content", "creator",
      "influencer", "video"]),
   ("ECOMMERCE", ["ecommerce", "dropshipping", "amazon", "shopify", "online store",
      "selling"]),
   ("FREELANCING", ["freelance", "upwork", "fiverr", "remote work", "consulting",
      "services"]),
   ("INVESTMENT", ["stocks", "crypto", "investment", "trading", "dividends",
      "portfolio"]),
   ("DIGITAL_PRODUCTS", ["course", "ebook", "software", "app", "saas", "template"])]

def categorizeTopicRPA (topic : String) : String :=
  let topic_lower := lowerStr topic
  match topicCategoriesRPA.find? (fun cat => cat.2.any (fun kw => strContains kw topic_lower)) with
  | some cat => cat.1
  | none => "OTHER"

def findRelatedKeywords (main_keyword : String) (all_keywords : List String) : List String :=
  let main_words := dedupFirst (pySplitWs (lowerStr main_keyword))
  (all_keywords.filter (fun kw =>
    decide (kw ≠ main_keyword) &&
      (let keyword_words := dedupFirst (pySplitWs (lowerStr kw))
       let overlap := (main_words.filter (fun w => keyword_words.contains w)).length
       decide (0 < overlap) &&
         decide ((3/10 : ℚ) < (overlap : ℚ) / (main_words.length : ℚ))))).take 5

structure RPATrendingTopic where
  topic : String
  platforms : List String
  total_engagement : ℚ
  growth_rate : ℚ
  momentum : ℚ
  sentiment_score : ℚ
  content_samples : List RPAContentItem
  confidence_score : ℚ
  category : String
  related_keywords : List String
  market_opportunity : String
  scraped_at : String

deriving DecidableEq

/-- The `RPATrendingTopic(...)` constructor call inside
`_extract_trending_topics_rpa` (`market_opportunity` is filled in later by the
enhancement step; the `growth_indicators` dict is the pair of fields
`growth_rate` / `momentum`). -/
def mkRPATopic (nowStr : String) (aks : List String) (keyword : String)
    (related_items : List RPAContentItem) (platforms : List String) : RPATrendingTopic :=
  { topic := keyword
    platforms := platforms
    total_engagement := (related_items.map engagementSum).sum
    growth_rate := (calculateGrowthIndicatorsRPA related_items).1
    momentum := (calculateGrowthIndicatorsRPA related_items).2
    sentiment_score := analyzeSentimentRPA related_items
    content_samples := related_items.take 5
    confidence_score := calculateTopicConfidence keyword related_items platforms
    category := categorizeTopicRPA keyword
    related_keywords := findRelatedKeywords keyword aks
    market_opportunity := ""
    scraped_at := nowStr }

def minCrossPlatformMentionsRPA : ℕ := 2

/-- One iteration of the `for keyword, freq in keyword_frequency.most_common(50)`
loop. -/
def extractStep (nowStr : String) (td : List (String × List RPAContentItem))
    (aks : List String) (acc : List RPATrendingTopic) (kf : String × ℕ) :
    List RPATrendingTopic :=
  if 2 ≤ kf.2 then
    let related_items := lookupGroup kf.1 td
    let platforms := dedupFirst (related_items.map (·.platform))
    if minCrossPlatformMentionsRPA ≤ platforms.length then
      acc ++ [mkRPATopic nowStr aks kf.1 related_items platforms]
    else acc
  else acc

def extractTrendingTopicsRPA (nowStr : String) (content_items : List RPAContentItem) :
    List RPATrendingTopic :=
  let groups := groupByPlatform content_items
  let td_aks := buildTopicData groups
  (mostCommon 50 (counterOf td_aks.2)).foldl (extractStep nowStr td_aks.1 td_aks.2) []

def minContentQualityScore : ℚ := 3/5

/-- The per-topic test of `_cross_platform_validation_rpa`: platform coverage
and `np.mean` of the sample confidences against `min_content_quality_score`. -/
def validTopicRPA (t : RPATrendingTopic) : Bool :=
  decide (minCrossPlatformMentionsRPA ≤ t.platforms.length) &&
    decide (minContentQualityScore ≤
      (t.content_samples.map (·.confidence_score)).sum / (t.content_samples.length : ℚ))

def crossPlatformValidationRPA (topics : List RPATrendingTopic) : List RPATrendingTopic :=
  topics.filter validTopicRPA

def categoryOpportunitiesRPA : List (String × String) :=
  [("AI_AUTOMATION", "AI工具和自动化服务需求增长，适合开发相关产品或提供咨询服务"),
   ("CONTENT_CREATION", "内容创作市场活跃，可开发创作工具或提供培训服务"),
   ("ECOMMERCE", "电商领域竞争激烈但机会多，适合产品销售或服务提供"),
   ("FREELANCING", "自由职业需求增长，适合技能型服务或平台开发"),
   ("INVESTMENT", "投资教育和工具需求稳定，适合知识付费或工具开发"),
   ("DIGITAL_PRODUCTS", "数字产品市场持续增长，适合课程、软件或模板销售")]

def analyzeMarketOpportunityRPA (t : RPATrendingTopic) : String :=
  let base := match categoryOpportunitiesRPA.find? (fun co => co.1 = t.category) with
    | some co => co.2
    | none => "新兴市场机会，需要进一步研究"
  let base := if 1000 < t.total_engagement then base ++ "，市场参与度高" else base
  let base := if 3 ≤ t.platforms.length then base ++ "，跨平台热度高" else base
  if (1/2 : ℚ) < t.growth_rate then base ++ "，增长趋势明显" else base

def calculateEnhancedConfidence (t : RPATrendingTopic)
    (all_content : List RPAContentItem) : ℚ :=
  let growth_bonus := t.growth_rate * (1/10)
  let sentiment_bonus := max (t.sentiment_score * (1/20)) 0
  let related_content_count := (all_content.filter (fun item =>
    t.related_keywords.any (fun kw => strContains kw (lowerStr item.content)))).length
  let richness_bonus := min ((related_content_count : ℚ) * (1/100)) (1/10)
  roundTo 3 (min (t.confidence_score + growth_bonus + sentiment_bonus + richness_bonus) 1)

/-- `RPAContentAnalyzer._enhance_topic_analysis` (its `try` body cannot raise
in this model, so no topic is dropped). -/
def enhanceTopicAnalysis (all_content : List RPAContentItem) (t : RPATrendingTopic) :
    RPATrendingTopic :=
  let t' := { t with market_opportunity := analyzeMarketOpportunityRPA t }
  { t' with confidence_score := calculateEnhancedConfidence t' all_content }

def topicConfGE (a b : RPATrendingTopic) : Prop := b.confidence_score ≤ a.confidence_score

instance : DecidableRel topicConfGE := fun a b => inferInstanceAs (Decidable (_ ≤ _))

/-- The deterministic tail of `analyze_market_trends_rpa`: quality filter,
topic extraction, cross-platform validation, enhancement, and the final sort
by confidence descending (the crawl that produces `all_content` is upstream of
this pipeline). -/
def analyzeMarketTrendsPipeline (nowStr : String) (all_content : List RPAContentItem) :
    List RPATrendingTopic :=
  let high_quality_content := all_content.filter
    (fun item => decide (minContentQualityScore ≤ item.confidence_score))
  let trending_topics := extractTrendingTopicsRPA nowStr high_quality_content
  let validated_topics := crossPlatformValidationRPA trending_topics
  let final_topics := validated_topics.map (enhanceTopicAnalysis high_quality_content)
  pySort topicConfGE final_topics

/-! ## Cross-platform validation in the advanced analyzer

`AdvancedContentAnalyzer._cross_platform_validation` keeps a topic bucket iff
its records span at least `min_cross_platform_mentions = 2` distinct platforms
and it holds at least 3 records. -/

def minCrossPlatformMentionsAdv : ℕ := 2

def crossPlatformValidation (topics_data : List (String × List ContentItem)) :
    List (String × List ContentItem) :=
  topics_data.filter (fun kv =>
    decide (minCrossPlatformMentionsAdv ≤ (dedupFirst (kv.2.map (·.platform))).length) &&
      decide (3 ≤ kv.2.length))

def advG1 : ContentItem :=
  { platform := "google", title := "ai automation gains", content := "c", url := "u1",
    author := "a1", publish_time := 0, engagement_score := 100, quality_score := 1,
    tags := [], media_type := "text" }

def advG2 : ContentItem :=
  { platform := "google", title := "ai automation tools", content := "c", url := "u2",
    author := "a2", publish_time := 0, engagement_score := 150, quality_score := 1,
    tags := [], media_type := "text" }

def advR1 : ContentItem :=
  { platform := "reddit", title := "ai automation thread", content := "c", url := "u3",
    author := "a3", publish_time := 0, engagement_score := 200, quality_score := 1,
    tags := [], media_type := "text" }

def cand33 : String × List ContentItem := ("ai automation", [advG1, advG2, advR1])

def cand13 : String × List ContentItem := ("ai automation", [advG1, advG2, advG1])

def cand22 : String × List ContentItem := ("ai automation", [advG1, advR1])

def setTopicScrapedAt (n : String) (t : RPATrendingTopic) : RPATrendingTopic :=
  { t with scraped_at := n }

theorem pyRound_bounds (q : ℚ) : q - 1/2 ≤ (pyRound q : ℚ) ∧ (pyRound q : ℚ) ≤ q + 1/2 := by
  unfold pyRound
  have hfl : (⌊q⌋ : ℚ) ≤ q := Int.floor_le q
  have hfl' : q < (⌊q⌋ : ℚ) + 1 := Int.lt_floor_add_one q
  by_cases h1 : q - (⌊q⌋ : ℚ) < 1/2
  · simp only [h1, if_true]
    constructor <;> [linarith; linarith]
  · simp only [h1, if_false]
    by_cases h2 : (1:ℚ)/2 < q - (⌊q⌋ : ℚ)
    · simp only [h2, if_true]
      push_cast
      constructor <;> linarith
    · simp only [h2, if_false]
      by_cases h3 : ⌊q⌋ % 2 = 0
      · simp only [h3, if_true]
        constructor <;> linarith
      · simp only [h3, if_false]
        push_cast
        constructor <;> linarith

theorem roundTo_nonneg {q : ℚ} (n : ℕ) (h : 0 ≤ q) : 0 ≤ roundTo n q := by
  unfold roundTo
  have hpow : (0:ℚ) < 10 ^ n := by positivity
  have hb := (pyRound_bounds (q * 10 ^ n)).1
  have hq : (0:ℚ) ≤ q * 10 ^ n := by positivity
  have hneg : (-1 : ℚ) < (pyRound (q * 10 ^ n) : ℚ) := by linarith
  have h1 : (-1 : ℤ) < pyRound (q * 10 ^ n) := by exact_mod_cast hneg
  have hz : (0 : ℤ) ≤ pyRound (q * 10 ^ n) := by omega
  have hzq : (0:ℚ) ≤ (pyRound (q * 10 ^ n) : ℚ) := by exact_mod_cast hz
  positivity

theorem roundTo_le {q c : ℚ} (n : ℕ) (hc : q ≤ c) (hcint : ∃ m : ℤ, (m : ℚ) = c * 10 ^ n) :
    roundTo n q ≤ c := by
  unfold roundTo
  obtain ⟨m, hm⟩ := hcint
  have hpow : (0:ℚ) < 10 ^ n := by positivity
  have hb := (pyRound_bounds (q * 10 ^ n)).2
  have hqc : q * 10 ^ n ≤ (m : ℚ) := by
    rw [hm]; exact mul_le_mul_of_nonneg_right hc (le_of_lt hpow)
  have : (pyRound (q * 10 ^ n) : ℚ) < (m : ℚ) + 1 := by linarith
  have hz : pyRound (q * 10 ^ n) ≤ m := by exact_mod_cast Int.lt_add_one_iff.mp (by exact_mod_cast this)
  have : (pyRound (q * 10 ^ n) : ℚ) ≤ (m : ℚ) := by exact_mod_cast hz
  rw [div_le_iff₀ hpow]
  calc (pyRound (q * 10 ^ n) : ℚ) ≤ (m : ℚ) := this
    _ = c * 10 ^ n := hm

theorem mem_pySortInsert {r : α → α → Prop} [DecidableRel r] {x z : α} {l : List α} :
    z ∈ pySortInsert r x l ↔ z = x ∨ z ∈ l := by
  induction l with
  | nil => simp [pySortInsert]
  | cons y ys ih =>
    by_cases h : r y x
    · simp only [pySortInsert, if_pos h, List.mem_cons, ih]
      tauto
    · simp [pySortInsert, if_neg h]

theorem pySortInsert_perm {r : α → α → Prop} [DecidableRel r] (x : α) (l : List α) :
    List.Perm (pySortInsert r x l) (x :: l) := by
  induction l with
  | nil => simp [pySortInsert]
  | cons y ys ih =>
    by_cases h : r y x
    · have hstep : pySortInsert r x (y :: ys) = y :: pySortInsert r x ys := by
        simp only [pySortInsert, if_pos h]
      rw [hstep]
      exact (ih.cons y).trans (List.Perm.swap x y ys)
    · simp [pySortInsert, if_neg h]

theorem pySort_perm {r : α → α → Prop} [DecidableRel r] (l : List α) :
    List.Perm (pySort r l) l := by
  suffices h : ∀ (l acc : List α), List.Perm (l.foldl (fun acc x => pySortInsert r x acc) acc) (l ++ acc) by
    simpa using h l []
  intro l
  induction l with
  | nil => intro acc; simp
  | cons x xs ih =>
    intro acc
    have h1 : (x :: xs).foldl (fun acc x => pySortInsert r x acc) acc
        = xs.foldl (fun acc x => pySortInsert r x acc) (pySortInsert r x acc) := rfl
    rw [h1]
    have h2 := ih (pySortInsert r x acc)
    have h3 : List.Perm (xs ++ pySortInsert r x acc) (xs ++ (x :: acc)) :=
      List.Perm.append_left xs (pySortInsert_perm x acc)
    have h4 : List.Perm (xs ++ (x :: acc)) (x :: (xs ++ acc)) := List.perm_middle
    exact h2.trans (h3.trans h4)

theorem sorted_pySortInsert {r : α → α → Prop} [DecidableRel r]
    (htot : ∀ a b, r a b ∨ r b a) (htrans : ∀ a b c, r a b → r b c → r a c)
    (x : α) {l : List α} (hl : l.Sorted r) : (pySortInsert r x l).Sorted r := by
  induction l with
  | nil => simp [pySortInsert]
  | cons y ys ih =>
    rw [List.sorted_cons] at hl
    by_cases h : r y x
    · rw [pySortInsert, if_pos h, List.sorted_cons]
      refine ⟨fun z hz => ?_, ih hl.2⟩
      rcases mem_pySortInsert.mp hz with hzx | hzl
      · exact hzx ▸ h
      · exact hl.1 z hzl
    · rw [pySortInsert, if_neg h, List.sorted_cons]
      refine ⟨fun z hz => ?_, by rw [List.sorted_cons]; exact hl⟩
      rcases List.mem_cons.mp hz with hzy | hzl
      · subst hzy
        rcases htot x z with hxz | hzx
        · exact hxz
        · exact absurd hzx h
      · have hxy : r x y := by
          rcases htot x y with hxy | hyx
          · exact hxy
          · exact absurd hyx h
        exact htrans x y z hxy (hl.1 z hzl)

theorem sorted_pySort {r : α → α → Prop} [DecidableRel r]
    (htot : ∀ a b, r a b ∨ r b a) (htrans : ∀ a b c, r a b → r b c → r a c)
    (l : List α) : (pySort r l).Sorted r := by
  suffices h : ∀ (l acc : List α), acc.Sorted r →
      (l.foldl (fun acc x => pySortInsert r x acc) acc).Sorted r by
    exact h l [] (by simp)
  intro l
  induction l with
  | nil => intro acc hacc; simpa using hacc
  | cons x xs ih =>
    intro acc hacc
    exact ih _ (sorted_pySortInsert htot htrans x hacc)

theorem pySort_length {r : α → α → Prop} [DecidableRel r] (l : List α) :
    (pySort r l).length = l.length :=
  (pySort_perm l).length_eq

theorem confGE_total (a b : RPAContentItem) : confGE a b ∨ confGE b a :=
  le_total b.confidence_score a.confidence_score

theorem confGE_trans (a b c : RPAContentItem) : confGE a b → confGE b c → confGE a c :=
  fun h1 h2 => le_trans h2 h1

/-- C1 counterexample: when every configured platform fails, the orchestrator
returns normally with the empty list; it does not raise `EmptyBatchError`
(no such error exists anywhere in the source). -/
theorem searchAllPlatforms_allFail_no_emptyBatch :
    searchAllPlatformsRPA allFailOutcomes = Except.ok [] ∧
    searchAllPlatformsRPA allFailOutcomes ≠ Except.error CrawlerError.emptyBatch := by
  constructor
  · rfl
  · have h : searchAllPlatformsRPA allFailOutcomes = Except.ok [] := rfl
    rw [h]
    simp

/-- C1 (amended): the all-platform search never raises: it always returns
`Except.ok`; when every configured platform failed or returned zero results it
returns the empty list; and when at least one platform yields results the
returned batch is non-empty (it contains the successful platforms' records). -/
theorem searchAllPlatforms_never_raises
    (outcomes : String → Except CrawlerError (List RPAContentItem)) :
    (∃ res, searchAllPlatformsRPA outcomes = Except.ok res) ∧
    ((∀ p ∈ crawlPlatforms, outcomes p = Except.ok [] ∨ ∃ e, outcomes p = Except.error e) →
      searchAllPlatformsRPA outcomes = Except.ok []) ∧
    (∀ p ∈ crawlPlatforms, ∀ l, outcomes p = Except.ok l → l ≠ [] →
      ∀ res, searchAllPlatformsRPA outcomes = Except.ok res → res ≠ []) := by
  refine ⟨⟨_, rfl⟩, ?_, ?_⟩
  · intro h
    have hg := h "google" (by simp [crawlPlatforms])
    have hr := h "reddit" (by simp [crawlPlatforms])
    rcases hg with hg | ⟨eg, hg⟩ <;> rcases hr with hr | ⟨er, hr⟩ <;>
      simp [searchAllPlatformsRPA, gatherAllContent, crawlPlatforms, hg, hr, pySort]
  · intro p hp l hl hlne res hres
    have hlen : res.length = (gatherAllContent outcomes).length := by
      have : res = pySort confGE (gatherAllContent outcomes) := by
        simpa [searchAllPlatformsRPA] using hres.symm
      rw [this, pySort_length]
    have hpos : 0 < (gatherAllContent outcomes).length := by
      have hp' : p = "google" ∨ p = "reddit" := by
        simpa [crawlPlatforms] using hp
      have hlpos : 0 < l.length := List.length_pos.mpr hlne
      rcases hp' with rfl | rfl
      · cases hrd : outcomes "reddit" with
        | ok lr => simp [gatherAllContent, crawlPlatforms, hl, hrd]; omega
        | error e => simp [gatherAllContent, crawlPlatforms, hl, hrd]; omega
      · cases hgo : outcomes "google" with
        | ok lg => simp [gatherAllContent, crawlPlatforms, hl, hgo]; omega
        | error e => simp [gatherAllContent, crawlPlatforms, hl, hgo]; omega
    intro hcon
    rw [hcon] at hlen
    simp at hlen
    omega

theorem searchAllPlatforms_never_raises_witness :
    searchAllPlatformsRPA allFailOutcomes = Except.ok [] ∧
    ∀ res, searchAllPlatformsRPA w1outcomes = Except.ok res → res ≠ [] := by
  constructor
  · exact (searchAllPlatforms_never_raises allFailOutcomes).2.1
      (fun p _ => Or.inr ⟨CrawlerError.platformFailure, rfl⟩)
  · exact (searchAllPlatforms_never_raises w1outcomes).2.2 "google" (by simp [crawlPlatforms])
      [w1goodItem] rfl (by simp)

/-- C10: whenever the orchestrator returns a (non-empty) batch, that batch is
sorted in descending order of per-item `confidence_score`. -/
theorem searchAllPlatforms_sorted_by_confidence
    (outcomes : String → Except CrawlerError (List RPAContentItem))
    (res : List RPAContentItem)
    (hres : searchAllPlatformsRPA outcomes = Except.ok res) (hne : res ≠ []) :
    res.Sorted confGE := by
  have : res = pySort confGE (gatherAllContent outcomes) := by
    simpa [searchAllPlatformsRPA] using hres.symm
  rw [this]
  exact sorted_pySort confGE_total confGE_trans _

theorem searchAllPlatforms_sorted_witness :
    List.Sorted confGE [w1goodItem, w10lowItem] :=
  searchAllPlatforms_sorted_by_confidence w10outcomes [w1goodItem, w10lowItem]
    (by decide) (by simp)

theorem proxyKeyLE_total (a b : ProxyConfig) : proxyKeyLE a b ∨ proxyKeyLE b a := by
  unfold proxyKeyLE
  rcases lt_trichotomy a.failure_count b.failure_count with h | h | h
  · exact Or.inl (Or.inl h)
  · rcases le_total a.success_count b.success_count with h' | h'
    · exact Or.inl (Or.inr ⟨h, h'⟩)
    · exact Or.inr (Or.inr ⟨h.symm, h'⟩)
  · exact Or.inr (Or.inl h)

theorem proxyKeyLE_trans (a b c : ProxyConfig) :
    proxyKeyLE a b → proxyKeyLE b c → proxyKeyLE a c := by
  unfold proxyKeyLE
  rintro (h1 | ⟨h1, h1'⟩) (h2 | ⟨h2, h2'⟩)
  · exact Or.inl (h1.trans h2)
  · exact Or.inl (h2 ▸ h1)
  · exact Or.inl (h1 ▸ h2)
  · exact Or.inr ⟨h1.trans h2, h1'.trans h2'⟩

theorem mem_pySort {r : α → α → Prop} [DecidableRel r] {l : List α} {z : α} :
    z ∈ pySort r l ↔ z ∈ l := (pySort_perm l).mem_iff

/-- C5: (i) three consecutive `mark_proxy_failure` calls on a fresh identity
deactivate it; (ii) neither further failures nor successes reactivate it;
(iii) when `get_next_proxy` finds no active identity it resets the whole pool
to active with zero failure counts; (iv) `get_next_proxy` always yields an
identity whenever the configured pool is non-empty. -/
theorem proxyPool_threshold_reset_liveness :
    (∀ (p : ProxyConfig) (t₁ t₂ t₃ : ℚ), p.failure_count = 0 →
      (markProxyFailure t₃ (markProxyFailure t₂ (markProxyFailure t₁ p))).is_active = false) ∧
    (∀ (p : ProxyConfig) (t rt : ℚ), p.is_active = false →
      (markProxyFailure t p).is_active = false ∧ (markProxySuccess t rt p).is_active = false) ∧
    (∀ s : PoolState, s.proxy_pool ≠ [] → s.proxy_pool.filter (·.is_active) = [] →
      ∀ p ∈ (getNextProxy s).2.proxy_pool, p.is_active = true ∧ p.failure_count = 0) ∧
    (∀ s : PoolState, s.proxy_pool ≠ [] → ∃ p, (getNextProxy s).1 = some p) := by
  refine ⟨?_, ?_, ?_, ?_⟩
  · intro p t₁ t₂ t₃ h
    simp [markProxyFailure, h, maxRetriesPerProxy]
  · intro p t rt h
    constructor
    · unfold markProxyFailure
      by_cases hc : maxRetriesPerProxy ≤ p.failure_count + 1
      · simp [hc]
      · simp [hc, h]
    · unfold markProxySuccess
      by_cases hc : 0 < p.failure_count
      · simp [hc, h]
      · simp [hc, h]
  · intro s hne hempty p hp
    rw [getNextProxy, if_neg hne] at hp
    simp only [hempty, if_pos rfl] at hp
    have hmem : p ∈ (s.proxy_pool.map resetProxy) := mem_pySort.mp hp
    rcases List.mem_map.mp hmem with ⟨q, _, rfl⟩
    exact ⟨rfl, rfl⟩
  · intro s hne
    rw [getNextProxy, if_neg hne]
    by_cases hempty : s.proxy_pool.filter (·.is_active) = []
    · simp only [hempty, if_pos rfl]
      have hlen : 0 < (pySort proxyKeyLE (s.proxy_pool.map resetProxy)).length := by
        rw [pySort_length, List.length_map]
        exact List.length_pos.mpr hne
      have hidx := Nat.mod_lt (s.current_proxy_index + 1) hlen
      exact ⟨_, List.getElem?_eq_getElem hidx⟩
    · simp only [hempty, if_neg hempty]
      have hlen : 0 < (pySort proxyKeyLE (s.proxy_pool.filter (·.is_active))).length := by
        rw [pySort_length]
        exact List.length_pos.mpr hempty
      have hidx := Nat.mod_lt (s.current_proxy_index + 1) hlen
      exact ⟨_, List.getElem?_eq_getElem hidx⟩

theorem proxyPool_threshold_reset_liveness_witness :
    (markProxyFailure 2 (markProxyFailure 1 (markProxyFailure 0 wProxy))).is_active = false ∧
    (∃ p, (getNextProxy ⟨[wProxy], 0⟩).1 = some p) :=
  ⟨proxyPool_threshold_reset_liveness.1 wProxy 0 1 2 rfl,
   proxyPool_threshold_reset_liveness.2.2.2 ⟨[wProxy], 0⟩ (by simp)⟩

/-- C6 counterexample: with two active identities whose counters tie,
`get_next_proxy` returns the identity last used at time 100 even though the
identity last used at time 0 is also active — selection is by
`(failure_count, success_count)` plus a round-robin index and never consults
`last_used`, so the result is not the least-recently-used active identity. -/
theorem getNextProxy_not_least_recently_used :
    (getNextProxy c6state).1 = some c6p1 ∧ c6p1.last_used = some 100 ∧
    c6p0 ∈ c6state.proxy_pool ∧ c6p0.is_active = true ∧ c6p0.last_used = some 0 ∧
    c6p1 ≠ c6p0 ∧ ¬((100:ℚ) ≤ 0) := by
  refine ⟨by decide, rfl, by simp [c6state], rfl, rfl, by decide, by norm_num⟩

theorem pySortInsert_map_setLastUsed (t : Option ℚ) (x : ProxyConfig) (l : List ProxyConfig) :
    pySortInsert proxyKeyLE (setLastUsed t x) (l.map (setLastUsed t)) =
      (pySortInsert proxyKeyLE x l).map (setLastUsed t) := by
  induction l with
  | nil => rfl
  | cons y ys ih =>
    simp only [List.map_cons]
    by_cases h : proxyKeyLE y x
    · have h' : proxyKeyLE (setLastUsed t y) (setLastUsed t x) := h
      simp only [pySortInsert, if_pos h, if_pos h', List.map_cons, ih]
    · have h' : ¬ proxyKeyLE (setLastUsed t y) (setLastUsed t x) := h
      simp only [pySortInsert, if_neg h, if_neg h', List.map_cons]

theorem pySort_map_setLastUsed (t : Option ℚ) (l : List ProxyConfig) :
    pySort proxyKeyLE (l.map (setLastUsed t)) = (pySort proxyKeyLE l).map (setLastUsed t) := by
  suffices h : ∀ (l acc : List ProxyConfig),
      ((l.map (setLastUsed t)).foldl (fun acc x => pySortInsert proxyKeyLE x acc)
          (acc.map (setLastUsed t))) =
        (l.foldl (fun acc x => pySortInsert proxyKeyLE x acc) acc).map (setLastUsed t) by
    simpa using h l []
  intro l
  induction l with
  | nil => intro acc; rfl
  | cons x xs ih =>
    intro acc
    simp only [List.map_cons, List.foldl_cons]
    rw [pySortInsert_map_setLastUsed]
    exact ih _

theorem filter_map_setLastUsed (t : Option ℚ) (l : List ProxyConfig) :
    (l.map (setLastUsed t)).filter (·.is_active) =
      (l.filter (·.is_active)).map (setLastUsed t) := by
  induction l with
  | nil => rfl
  | cons x xs ih =>
    simp only [List.map_cons, List.filter_cons]
    cases h : x.is_active with
    | false =>
      have h' : (setLastUsed t x).is_active = false := h
      simp [h, h', ih]
    | true =>
      have h' : (setLastUsed t x).is_active = true := h
      simp [h, h', ih]

theorem resetProxy_map_setLastUsed (t : Option ℚ) (l : List ProxyConfig) :
    (l.map (setLastUsed t)).map resetProxy = (l.map resetProxy).map (setLastUsed t) := by
  simp only [List.map_map]
  rfl

/-- C6 (amended): whenever at least one identity is active, `get_next_proxy`
returns an active identity from the pool — but selection is by ascending
`(failure_count, success_count)` with a round-robin offset, not by last-used
recency: uniformly rewriting every identity's `last_used` timestamp leaves the
selection unchanged, so the timestamp plays no role in the choice. -/
theorem getNextProxy_active_member_ignores_lastUsed :
    (∀ s : PoolState, s.proxy_pool.filter (·.is_active) ≠ [] →
      ∃ p, (getNextProxy s).1 = some p ∧ p.is_active = true ∧ p ∈ s.proxy_pool) ∧
    (∀ (s : PoolState) (t : Option ℚ),
      (getNextProxy (setPoolLastUsed t s)).1 = (getNextProxy s).1.map (setLastUsed t)) := by
  constructor
  · intro s hactive
    have hne : s.proxy_pool ≠ [] := by
      intro h
      exact hactive (by simp [h])
    rw [getNextProxy, if_neg hne]
    simp only [if_neg hactive]
    have hlen : 0 < (pySort proxyKeyLE (s.proxy_pool.filter (·.is_active))).length := by
      rw [pySort_length]
      exact List.length_pos.mpr hactive
    have hidx := Nat.mod_lt (s.current_proxy_index + 1) hlen
    refine ⟨_, List.getElem?_eq_getElem hidx, ?_, ?_⟩
    · have hmem := List.getElem_mem hidx
      have := mem_pySort.mp hmem
      exact (List.mem_filter.mp this).2
    · have hmem := List.getElem_mem hidx
      have := mem_pySort.mp hmem
      exact (List.mem_filter.mp this).1
  · intro s t
    by_cases hne : s.proxy_pool = []
    · rw [getNextProxy, getNextProxy]
      simp [setPoolLastUsed, hne]
    · have hne' : (setPoolLastUsed t s).proxy_pool ≠ [] := by
        simp [setPoolLastUsed, hne]
      rw [getNextProxy, getNextProxy, if_neg hne, if_neg hne']
      simp only [setPoolLastUsed]
      rw [filter_map_setLastUsed]
      by_cases hactive : s.proxy_pool.filter (·.is_active) = []
      · rw [hactive]
        simp only [List.map_nil, if_pos rfl, if_pos hactive]
        rw [resetProxy_map_setLastUsed, pySort_map_setLastUsed]
        simp [List.getElem?_map]
      · have hmapne : (s.proxy_pool.filter (·.is_active)).map (setLastUsed t) ≠ [] := by
          simpa using hactive
        rw [if_neg hmapne, if_neg hactive]
        rw [pySort_map_setLastUsed]
        simp [List.getElem?_map]

theorem getNextProxy_active_member_witness :
    ∃ p, (getNextProxy c6state).1 = some p ∧ p.is_active = true ∧ p ∈ c6state.proxy_pool :=
  getNextProxy_active_member_ignores_lastUsed.1 c6state (by decide)

/-- C9 counterexample: the follower estimate is not monotone: mean engagement 9
maps to int(9*100) = 900 followers, while mean engagement 10 maps to
int(10*50) = 500 followers. -/
theorem estimateFollowerCount_not_monotone :
    (9:ℚ) ≤ 10 ∧ estimateFollowerCount 9 = 900 ∧ estimateFollowerCount 10 = 500 ∧
    ¬(estimateFollowerCount 9 ≤ estimateFollowerCount 10) := by
  refine ⟨by norm_num, ?_, ?_, ?_⟩
  · rw [estimateFollowerCount, if_pos (by norm_num)]
    rw [pyInt, if_pos (by norm_num)]
    norm_num
  · rw [estimateFollowerCount, if_neg (by norm_num), if_pos (by norm_num)]
    rw [pyInt, if_pos (by norm_num)]
    norm_num
  · rw [estimateFollowerCount, if_pos (by norm_num : (9:ℚ) < 10)]
    rw [estimateFollowerCount, if_neg (by norm_num : ¬((10:ℚ) < 10)), if_pos (by norm_num : (10:ℚ) < 100)]
    rw [pyInt, if_pos (by norm_num), pyInt, if_pos (by norm_num)]
    norm_num

/-- C9 (amended): within each of the four engagement bands the follower
estimate is monotone (the multiplier is constant and `int` truncation is
monotone on nonnegative inputs), but it drops at the band boundaries where the
multiplier falls from 100 to 50 to 20 to 10. -/
theorem estimateFollowerCount_monotone_within_band
    (a b : ℚ) (ha : 0 ≤ a) (hab : a ≤ b) (hband : sameBand a b) :
    estimateFollowerCount a ≤ estimateFollowerCount b := by
  have hb0 : 0 ≤ b := le_trans ha hab
  unfold estimateFollowerCount sameBand at *
  have key : ∀ (c : ℚ), 0 < c → pyInt (a * c) ≤ pyInt (b * c) := by
    intro c hc
    rw [pyInt, if_pos (by positivity), pyInt, if_pos (by positivity)]
    exact Int.floor_le_floor (mul_le_mul_of_nonneg_right hab (le_of_lt hc))
  rcases hband with h | ⟨h1, h2⟩ | ⟨h1, h2⟩ | h
  · have ha' : a < 10 := lt_of_le_of_lt hab h
    rw [if_pos ha', if_pos h]
    exact key 100 (by norm_num)
  · have ha2 : ¬(a < 10) := not_lt.mpr h1
    have hb1 : ¬(b < 10) := not_lt.mpr (le_trans h1 hab)
    have ha3 : a < 100 := lt_of_le_of_lt hab h2
    rw [if_neg ha2, if_pos ha3, if_neg hb1, if_pos h2]
    exact key 50 (by norm_num)
  · have ha2 : ¬(a < 100) := not_lt.mpr h1
    have hb1 : ¬(b < 100) := not_lt.mpr (le_trans h1 hab)
    have ha10 : ¬(a < 10) := not_lt.mpr (le_trans (by norm_num) h1)
    have hb10 : ¬(b < 10) := not_lt.mpr (le_trans (by norm_num) (le_trans h1 hab))
    have ha3 : a < 1000 := lt_of_le_of_lt hab h2
    rw [if_neg ha10, if_neg ha2, if_pos ha3, if_neg hb10, if_neg hb1, if_pos h2]
    exact key 20 (by norm_num)
  · have hb' : 1000 ≤ b := le_trans h hab
    have ha10 : ¬(a < 10) := not_lt.mpr (le_trans (by norm_num) h)
    have ha100 : ¬(a < 100) := not_lt.mpr (le_trans (by norm_num) h)
    have ha1000 : ¬(a < 1000) := not_lt.mpr h
    have hb10 : ¬(b < 10) := not_lt.mpr (le_trans (by norm_num) hb')
    have hb100 : ¬(b < 100) := not_lt.mpr (le_trans (by norm_num) hb')
    have hb1000 : ¬(b < 1000) := not_lt.mpr hb'
    rw [if_neg ha10, if_neg ha100, if_neg ha1000, if_neg hb10, if_neg hb100, if_neg hb1000]
    exact key 10 (by norm_num)

theorem estimateFollowerCount_monotone_within_band_witness :
    estimateFollowerCount 3 ≤ estimateFollowerCount 5 :=
  estimateFollowerCount_monotone_within_band 3 5 (by norm_num) (by norm_num)
    (Or.inl (by norm_num))

/-- C7 counterexample: a fresh cache file holding one good record and one
record that fails to deserialize is not reported as a miss — the bad record is
skipped individually and the reader returns the remaining topics. -/
theorem loadCache_bad_record_not_a_miss :
    (none : Option Topic) ∈ c7data.topics ∧
    loadCache 0 (some c7data) = some [c7goodTopic] := by
  constructor
  · simp [c7data]
  · rw [loadCache]
    simp [c7data, cacheDurationSeconds]

/-- C7 (amended): the reader reports a cache miss exactly when the file is
missing/unreadable, its timestamp is unparseable, or `now - timestamp`
exceeds 6 hours; a stored record that fails to deserialize is skipped
individually (the remaining records are still returned), and the reader is a
total function — it never hard-fails. -/
theorem loadCache_miss_iff (now : ℚ) (file : Option CacheData) :
    (loadCache now file = none ↔
      (file = none ∨
        (∃ cd, file = some cd ∧ cd.timestamp = none) ∨
        (∃ cd ts, file = some cd ∧ cd.timestamp = some ts ∧ cacheDurationSeconds < now - ts))) ∧
    (∀ cd ts, file = some cd → cd.timestamp = some ts → ¬(cacheDurationSeconds < now - ts) →
      loadCache now file = some (cd.topics.filterMap id)) := by
  constructor
  · constructor
    · intro h
      match hf : file with
      | none => exact Or.inl rfl
      | some cd =>
        match ht : cd.timestamp with
        | none => exact Or.inr (Or.inl ⟨cd, rfl, ht⟩)
        | some ts =>
          refine Or.inr (Or.inr ⟨cd, ts, rfl, ht, ?_⟩)
          simp only [loadCache, ht] at h
          by_contra hc
          rw [if_neg hc] at h
          exact Option.noConfusion h
    · rintro (rfl | ⟨cd, rfl, ht⟩ | ⟨cd, ts, rfl, ht, hexp⟩)
      · rfl
      · simp [loadCache, ht]
      · simp [loadCache, ht, hexp]
  · intro cd ts hf ht hfresh
    subst hf
    simp [loadCache, ht, hfresh]

theorem loadCache_miss_iff_witness :
    loadCache 0 (some c7data) = some (c7data.topics.filterMap id) :=
  (loadCache_miss_iff 0 (some c7data)).2 c7data 0 rfl rfl (by norm_num [cacheDurationSeconds])

/-- C3 counterexample: the RPA analyzer's growth rate is not clamped to
[-1, 5] — two records with engagements 1 and 100 give growth 99 — and a
single-record candidate (whose "older half" is empty) yields 0.0, not 1.0. -/
theorem growthIndicatorsRPA_unclamped :
    (calculateGrowthIndicatorsRPA [c3lowItem, c3highItem]).1 = 99 ∧
    ¬((calculateGrowthIndicatorsRPA [c3lowItem, c3highItem]).1 ≤ 5) ∧
    (calculateGrowthIndicatorsRPA [c3lowItem]).1 = 0 := by
  refine ⟨by decide, ?_, by decide⟩
  intro h
  have h99 : (calculateGrowthIndicatorsRPA [c3lowItem, c3highItem]).1 = 99 := by decide
  rw [h99] at h
  norm_num at h

/-- C3 (amended): the advanced analyzer's `_calculate_growth_rate` always lies
in [-1, 5], and a candidate whose older half (records at least 3 days old) is
empty yields exactly 1.0; the RPA analyzer's `_calculate_growth_indicators`
satisfies neither clamping nor the novel-topic default. -/
theorem calculateGrowthRate_clamped (now : ℚ) (content_items : List ContentItem) :
    -1 ≤ calculateGrowthRate now content_items ∧
    calculateGrowthRate now content_items ≤ 5 ∧
    (content_items.filter (fun i => i.publish_time ≤ now - threeDaysSeconds) = [] →
      calculateGrowthRate now content_items = 1) := by
  unfold calculateGrowthRate
  by_cases hold : content_items.filter (fun i => i.publish_time ≤ now - threeDaysSeconds) = []
  · rw [if_pos hold]
    norm_num
  · rw [if_neg hold]
    refine ⟨?_, ?_, fun h => absurd h hold⟩ <;>
      by_cases hz : ((content_items.filter
          (fun i => i.publish_time ≤ now - threeDaysSeconds)).map (·.engagement_score)).sum = 0
    · rw [if_pos hz]; norm_num
    · rw [if_neg hz]
      exact le_min (le_max_right _ _) (by norm_num)
    · rw [if_pos hz]; norm_num
    · rw [if_neg hz]
      exact min_le_right _ _

theorem calculateGrowthRate_clamped_witness :
    calculateGrowthRate 0 [c3oldItem] = 1 :=
  (calculateGrowthRate_clamped 0 [c3oldItem]).2.2 (by decide)

/-- C4 counterexample: the confidence score the RPA analyzer stores on a
validated topic is its bonus-based `_calculate_topic_confidence` value
(here 0.831, on the [0,1] scale), not the five-factor weighted sum multiplied
by 100 (here 43.83) that the claim describes. -/
theorem topicConfidence_not_prediction_formula :
    calculateTopicConfidence "automation" [cexA, cexB] ["google", "youtube"] = 831/1000 ∧
    calculatePredictionScore (([cexA, cexB].map engagementSum).sum)
      ((calculateGrowthIndicatorsRPA [cexA, cexB]).1) 0 2 2 = 4383/100 ∧
    (831/1000 : ℚ) ≠ 4383/100 := by
  refine ⟨by decide, by decide, by norm_num⟩

/-- C4 (amended): the advanced analyzer's `_calculate_prediction_score` equals
the weighted sum of the five normalized factors (weights 0.30 / 0.25 / 0.15 /
0.20 / 0.10) scaled by 100 and rounded to 2 decimals, and lies in [0, 100]
whenever aggregate engagement is nonnegative and sentiment is in [-1, 1];
the score stored by the RPA analyzer uses a different formula on the [0, 1]
scale. -/
theorem calculatePredictionScore_range (e g s : ℚ) (pc cc : ℕ)
    (he : 0 ≤ e) (hs1 : -1 ≤ s) (hs2 : s ≤ 1) :
    (calculatePredictionScore e g s pc cc =
      roundTo 2 ((min (e / 1000) 1 * (3/10) + min (max (g + 1) 0) 2 / 2 * (1/4) +
        (s + 1) / 2 * (3/20) + min ((pc : ℚ) / 4) 1 * (1/5) +
        min ((cc : ℚ) / 20) 1 * (1/10)) * 100)) ∧
    0 ≤ calculatePredictionScore e g s pc cc ∧
    calculatePredictionScore e g s pc cc ≤ 100 := by
  have h1 : 0 ≤ min (e / 1000) 1 := le_min (by positivity) (by norm_num)
  have h1' : min (e / 1000) 1 ≤ 1 := min_le_right _ _
  have h2 : 0 ≤ min (max (g + 1) 0) 2 := le_min (le_max_right _ _) (by norm_num)
  have h2' : min (max (g + 1) 0) 2 ≤ 2 := min_le_right _ _
  have h3 : 0 ≤ (s + 1) / 2 := by linarith
  have h3' : (s + 1) / 2 ≤ 1 := by linarith
  have h4 : 0 ≤ min ((pc : ℚ) / 4) 1 := le_min (by positivity) (by norm_num)
  have h4' : min ((pc : ℚ) / 4) 1 ≤ 1 := min_le_right _ _
  have h5 : 0 ≤ min ((cc : ℚ) / 20) 1 := le_min (by positivity) (by norm_num)
  have h5' : min ((cc : ℚ) / 20) 1 ≤ 1 := min_le_right _ _
  have hscore0 : 0 ≤ min (e / 1000) 1 * (3/10) + min (max (g + 1) 0) 2 / 2 * (1/4) +
      (s + 1) / 2 * (3/20) + min ((pc : ℚ) / 4) 1 * (1/5) +
      min ((cc : ℚ) / 20) 1 * (1/10) := by linarith
  have hscore1 : min (e / 1000) 1 * (3/10) + min (max (g + 1) 0) 2 / 2 * (1/4) +
      (s + 1) / 2 * (3/20) + min ((pc : ℚ) / 4) 1 * (1/5) +
      min ((cc : ℚ) / 20) 1 * (1/10) ≤ 1 := by linarith
  refine ⟨rfl, ?_, ?_⟩
  · exact roundTo_nonneg 2 (by linarith)
  · exact roundTo_le 2 (by linarith) ⟨10000, by norm_num⟩

theorem calculatePredictionScore_range_witness :
    0 ≤ calculatePredictionScore 620 1 0 2 5 ∧ calculatePredictionScore 620 1 0 2 5 ≤ 100 :=
  (calculatePredictionScore_range 620 1 0 2 5 (by norm_num) (by norm_num) (by norm_num)).2

/-- C2 (amended): in the advanced analyzer a TopicCandidate is promoted iff
its records span at least 2 distinct platforms and number at least 3 — with
exactly the boundary behaviour the claim states; the RPA analyzer's extractor,
however, promotes on keyword frequency ≥ 2 plus ≥ 2 platforms (and a mean
sample-quality gate of 0.6) without any 3-record minimum. -/
theorem crossPlatformValidation_promotion :
    (∀ (topics_data : List (String × List ContentItem)) (kv : String × List ContentItem),
      kv ∈ crossPlatformValidation topics_data ↔
        kv ∈ topics_data ∧
          minCrossPlatformMentionsAdv ≤ (dedupFirst (kv.2.map (·.platform))).length ∧
          3 ≤ kv.2.length) ∧
    crossPlatformValidation [cand33] = [cand33] ∧
    crossPlatformValidation [cand13] = [] ∧
    crossPlatformValidation [cand22] = [] := by
  refine ⟨?_, by decide, by decide, by decide⟩
  intro topics_data kv
  simp [crossPlatformValidation, List.mem_filter, and_assoc]

/-- C2 counterexample: running the RPA extractor plus its validation on two
high-quality records — one Google, one YouTube, each repeating the word
"automation" three times — promotes the candidates "automation" and
"automation automation" to trending topics even though each is backed by only
2 records (`content_samples` is the full bucket here, truncation at 5 does not
bite), contradicting the claimed 3-record minimum. -/
theorem rpaPromotion_two_records :
    ((crossPlatformValidationRPA
        (extractTrendingTopicsRPA "2024-01-02T00:00:00" [cexA, cexB])).map
      (fun t => (t.topic, t.content_samples.length, t.platforms.length))) =
      [("automation", 2, 2), ("automation automation", 2, 2)] := by
  decide

/-! ## Determinism of the scoring pipeline

The embedded pipeline is a pure function of the record list and the clock
string used for the `scraped_at` metadata field; no randomness enters
(the source confines `random`/`np.random` to crawling and pacing).  We prove
more: the clock only reaches the `scraped_at` metadata of the produced topics,
so two runs on the same records always agree on every ranking and score. -/

theorem pySortInsert_map_congr {r : α → α → Prop} [DecidableRel r] (f : α → α)
    (hf : ∀ a b, r (f a) (f b) ↔ r a b) (x : α) (l : List α) :
    pySortInsert r (f x) (l.map f) = (pySortInsert r x l).map f := by
  induction l with
  | nil => rfl
  | cons y ys ih =>
    simp only [List.map_cons]
    by_cases h : r y x
    · have h' : r (f y) (f x) := (hf y x).mpr h
      simp only [pySortInsert, if_pos h, if_pos h', List.map_cons, ih]
    · have h' : ¬ r (f y) (f x) := fun hc => h ((hf y x).mp hc)
      simp only [pySortInsert, if_neg h, if_neg h', List.map_cons]

theorem pySort_map_congr {r : α → α → Prop} [DecidableRel r] (f : α → α)
    (hf : ∀ a b, r (f a) (f b) ↔ r a b) (l : List α) :
    pySort r (l.map f) = (pySort r l).map f := by
  suffices h : ∀ (l acc : List α),
      (l.map f).foldl (fun acc x => pySortInsert r x acc) (acc.map f) =
        (l.foldl (fun acc x => pySortInsert r x acc) acc).map f by
    simpa using h l []
  intro l
  induction l with
  | nil => intro acc; rfl
  | cons x xs ih =>
    intro acc
    simp only [List.map_cons, List.foldl_cons]
    rw [pySortInsert_map_congr f hf]
    exact ih _

theorem filter_map_congr (f : α → α) (p : α → Bool) (hf : ∀ a, p (f a) = p a)
    (l : List α) : (l.map f).filter p = (l.filter p).map f := by
  induction l with
  | nil => rfl
  | cons x xs ih =>
    simp only [List.map_cons, List.filter_cons, hf x]
    cases h : p x <;> simp [h, ih]

theorem extractStep_scrapedAt (n n' : String) (td : List (String × List RPAContentItem))
    (aks : List String) (acc : List RPATrendingTopic) (kf : String × ℕ) :
    extractStep n td aks (acc.map (setTopicScrapedAt n)) kf =
      (extractStep n' td aks acc kf).map (setTopicScrapedAt n) := by
  unfold extractStep
  by_cases h2 : 2 ≤ kf.2
  · simp only [if_pos h2]
    by_cases hp : minCrossPlatformMentionsRPA ≤
        (dedupFirst ((lookupGroup kf.1 td).map (·.platform))).length
    · simp only [if_pos hp, List.map_append]
      rfl
    · simp only [if_neg hp]
  · simp only [if_neg h2]

theorem extractFold_scrapedAt (n n' : String) (td : List (String × List RPAContentItem))
    (aks : List String) (list : List (String × ℕ)) :
    ∀ acc, list.foldl (extractStep n td aks) (acc.map (setTopicScrapedAt n)) =
      (list.foldl (extractStep n' td aks) acc).map (setTopicScrapedAt n) := by
  induction list with
  | nil => intro acc; rfl
  | cons kf rest ih =>
    intro acc
    simp only [List.foldl_cons]
    rw [extractStep_scrapedAt n n' td aks acc kf]
    exact ih _

theorem extract_scrapedAt (n n' : String) (l : List RPAContentItem) :
    extractTrendingTopicsRPA n l =
      (extractTrendingTopicsRPA n' l).map (setTopicScrapedAt n) := by
  unfold extractTrendingTopicsRPA
  simpa using extractFold_scrapedAt n n' (buildTopicData (groupByPlatform l)).1
    (buildTopicData (groupByPlatform l)).2
    (mostCommon 50 (counterOf (buildTopicData (groupByPlatform l)).2)) []

theorem validation_map_scrapedAt (n : String) (topics : List RPATrendingTopic) :
    crossPlatformValidationRPA (topics.map (setTopicScrapedAt n)) =
      (crossPlatformValidationRPA topics).map (setTopicScrapedAt n) := by
  unfold crossPlatformValidationRPA
  exact filter_map_congr (setTopicScrapedAt n) validTopicRPA (fun t => rfl) topics

theorem enhance_map_scrapedAt (n : String) (hq : List RPAContentItem)
    (topics : List RPATrendingTopic) :
    (topics.map (setTopicScrapedAt n)).map (enhanceTopicAnalysis hq) =
      (topics.map (enhanceTopicAnalysis hq)).map (setTopicScrapedAt n) := by
  simp only [List.map_map]
  rfl

/-- C8: the extraction-and-scoring pipeline is deterministic — running it
twice on an identical, unchanged list of records yields identical rankings and
scores.  Moreover the wall clock (which the source reads as
`datetime.now().isoformat()`) only lands in the `scraped_at` metadata of the
produced topics: runs at different times differ by nothing else, so every
score and position is reproducible. -/
theorem pipeline_deterministic :
    (∀ (l₁ l₂ : List RPAContentItem) (nowStr : String), l₁ = l₂ →
      analyzeMarketTrendsPipeline nowStr l₁ = analyzeMarketTrendsPipeline nowStr l₂) ∧
    (∀ (n₁ n₂ : String) (l : List RPAContentItem),
      analyzeMarketTrendsPipeline n₁ l =
        (analyzeMarketTrendsPipeline n₂ l).map (setTopicScrapedAt n₁)) := by
  constructor
  · intro l₁ l₂ nowStr h
    rw [h]
  · intro n₁ n₂ l
    unfold analyzeMarketTrendsPipeline
    dsimp only
    rw [extract_scrapedAt n₁ n₂, validation_map_scrapedAt, enhance_map_scrapedAt,
      @pySort_map_congr _ topicConfGE _ (setTopicScrapedAt n₁) (fun a b => Iff.rfl)]

theorem pipeline_deterministic_witness :
    analyzeMarketTrendsPipeline "2024-01-02T00:00:00" [cexA, cexB] =
      analyzeMarketTrendsPipeline "2024-01-02T00:00:00" [cexA, cexB] :=
  pipeline_deterministic.1 [cexA, cexB] [cexA, cexB] "2024-01-02T00:00:00" rfl
